import Mathlib

/-!
Verification development for the pm5 process supervisor (src/pm5/pm5.py).

The supervisor launches service instances as child processes, monitors them,
restarts them according to a per-service restart budget, and persists the set
of live process ids in a lock file ("Registry") for crash recovery.

The embedding below translates the relevant Python functions into Lean:
pure control flow becomes recursion (with explicit fuel where the source loop
may not terminate), mutable global state becomes explicit state passing, OS
side effects (signals, sleeps, waits, log warnings) become elements of an
emitted action trace, and Python exceptions become Except values.
-/

namespace PM5

/-!
## Monitor: embedding of monitor_service (pm5.py lines 74-123)

The monitored process is abstracted by the exit codes of its successive runs:
run index 0 is the initially launched process, run index j+1 is the process
started by the j-th restart, and exits j is the exit code (returncode) that
process.wait() observes for run j.  Waiting again on an already-exited
process returns at once with the same returncode, which the functional
encoding captures by reading exits at an unchanged run index.

The global shutdown flag is threaded as sd; within a single sequential
monitor run nothing sets it (handle_exit never returns, it ends the whole
process), so it stays constant.  The removal of the exited process from the
process table, done under the lock at the top of the loop body, is modelled
separately below (monitorRemove) since it touches only the table state.
-/

/-- How a single monitor_service run ends. -/
inductive MOutcome where
  /-- The final else branch executed its break statement. -/
  | brk : MOutcome
  /-- The while condition failed at the top of the loop. -/
  | condExit : MOutcome
  /-- The shutdown flag was observed right after the wait, breaking the loop. -/
  | sdBreak : MOutcome
  /-- handle_exit was called: full supervisor shutdown (it never returns). -/
  | shutdownAll : MOutcome
deriving DecidableEq, Repr

/-- One monitor_service execution, fuel-indexed.  Arguments after the colon:
fuel, the current value of the restarts counter, and the current run index
(the number of times the monitor has called start_service so far).  Returns
none when the fuel runs out before the loop ends, otherwise the outcome
paired with the final run index, i.e. the number of restarts performed. -/
def monitorRun (exits : Nat → Int) (maxRestarts : Int) (autorestart : Bool)
    (sd : Bool) : Nat → Int → Nat → Option (MOutcome × Nat)
  | 0, _, _ => none
  | fuel + 1, restarts, runIdx =>
    if restarts ≤ maxRestarts ∧ sd = false then
      let rc := exits runIdx
      if sd then some (MOutcome.sdBreak, runIdx)
      else if restarts < maxRestarts ∧ autorestart = true then
        monitorRun exits maxRestarts autorestart sd fuel (restarts + 1) (runIdx + 1)
      else if restarts = maxRestarts then
        if rc ≠ 0 then some (MOutcome.shutdownAll, runIdx)
        else monitorRun exits maxRestarts autorestart sd fuel restarts runIdx
      else
        some (MOutcome.brk, runIdx)
    else
      some (MOutcome.condExit, runIdx)

/-- monitor_service terminates on some fuel. -/
def monitorTerminates (exits : Nat → Int) (maxRestarts : Int)
    (autorestart : Bool) : Prop :=
  ∃ fuel, (monitorRun exits maxRestarts autorestart false fuel 0 0).isSome

/-- Claim C1: with max_restarts = 2 and autorestart = true, a process that
exits non-zero on every run is restarted exactly twice (the final run index
is 2, each restart having incremented the restarts counter in lockstep), and
the third non-zero exit triggers full supervisor shutdown instead of another
restart. -/
theorem monitor_budget2_two_restarts_then_shutdown (exits : Nat → Int)
    (h : ∀ i, exits i ≠ 0) (fuel : Nat) (hf : 3 ≤ fuel) :
    monitorRun exits 2 true false fuel 0 0 = some (MOutcome.shutdownAll, 2) := by
  obtain ⟨f, rfl⟩ : ∃ f, fuel = f + 3 := ⟨fuel - 3, by omega⟩
  simp [monitorRun, h 2]

/-- Witness for C1 at the constant exit-code stream 1 and fuel 3. -/
theorem monitor_budget2_two_restarts_then_shutdown_witness :
    monitorRun (fun _ => 1) 2 true false 3 0 0 = some (MOutcome.shutdownAll, 2) :=
  monitor_budget2_two_restarts_then_shutdown (fun _ => 1) (fun _ => one_ne_zero) 3
    (by decide)

/-- Counterexample to claim C2 as stated: with max_restarts = 0 (and
autorestart false), a single non-zero exit does not leave the Monitor idle
with the supervisor running — monitor_service hits the restarts = max_restarts
branch and calls handle_exit, triggering shutdown of the whole supervisor. -/
theorem monitor_budget0_shutdown_cex :
    monitorRun (fun _ => 1) 0 false false 1 0 0 =
      some (MOutcome.shutdownAll, 0) := by
  decide

/-- Claim C2 (amended): with max_restarts = 0 the Monitor never restarts the
process (final run index stays 0, whatever the autorestart flag), but a
single non-zero exit triggers full supervisor shutdown via handle_exit
rather than leaving the supervisor running. -/
theorem monitor_budget0_no_restart_but_shutdown (exits : Nat → Int)
    (ar : Bool) (h : exits 0 ≠ 0) (fuel : Nat) (hf : 1 ≤ fuel) :
    monitorRun exits 0 ar false fuel 0 0 = some (MOutcome.shutdownAll, 0) := by
  obtain ⟨f, rfl⟩ : ∃ f, fuel = f + 1 := ⟨fuel - 1, by omega⟩
  simp [monitorRun, h]

/-- Witness for the amended C2 at the constant exit-code stream 1, fuel 1. -/
theorem monitor_budget0_no_restart_but_shutdown_witness :
    monitorRun (fun _ => 1) 0 false false 1 0 0 =
      some (MOutcome.shutdownAll, 0) :=
  monitor_budget0_no_restart_but_shutdown (fun _ => 1) false (by decide) 1
    (by decide)

/-- Helper for the C8 counterexample: when every run exits cleanly and the
budget is 0, the loop body takes the restarts = maxRestarts branch with a
zero returncode, which neither breaks nor restarts, so monitorRun consumes
all its fuel at an unchanged state. -/
theorem monitorRun_clean_at_budget_none (fuel : Nat) :
    monitorRun (fun _ => 0) 0 false false fuel 0 0 = none := by
  induction fuel with
  | zero => rfl
  | succ f ih => simpa [monitorRun] using ih

/-- Counterexample to claim C8 as stated: a clean (zero) exit occurring when
restartsUsed equals maxRestarts performs no restart and triggers no shutdown,
yet the monitor loop does not terminate — it iterates again on the
already-exited process forever (here with max_restarts = 0 and a process
that exits cleanly). -/
theorem monitor_clean_at_budget_loops_forever_cex :
    ¬ monitorTerminates (fun _ => 0) 0 false := by
  rintro ⟨fuel, h⟩
  rw [monitorRun_clean_at_budget_none fuel] at h
  simp at h

/-- Claim C8 (amended): an exit handled by the final else branch of
monitor_service — reached when restartsUsed < maxRestarts with autorestart
disabled — terminates the loop via its break statement, with no restart
performed; but a clean exit at restartsUsed = maxRestarts makes the loop
iterate again on the already-exited process instead of terminating. -/
theorem monitor_no_policy_break (exits : Nat → Int) (maxRestarts : Int)
    (hmr : 0 < maxRestarts) (fuel : Nat) (hf : 1 ≤ fuel) :
    monitorRun exits maxRestarts false false fuel 0 0 =
      some (MOutcome.brk, 0) := by
  obtain ⟨f, rfl⟩ : ∃ f, fuel = f + 1 := ⟨fuel - 1, by omega⟩
  have h1 : ¬ (0 : Int) = maxRestarts := by omega
  have h2 : (0 : Int) ≤ maxRestarts := by omega
  simp [monitorRun, h1, h2]

/-- Witness for the amended C8: budget 1, no autorestart, fuel 1. -/
theorem monitor_no_policy_break_witness :
    monitorRun (fun _ => 1) 1 false false 1 0 0 = some (MOutcome.brk, 0) :=
  monitor_no_policy_break (fun _ => 1) 1 (by decide) 1 (by decide)

/-!
## Process table and Registry (pm5.py lines 16-27, 57-64, 86-90, 233-237)

The module-level globals processes (a Python list of Popen objects),
process_service_map (pid → service name) and the lock-file contents become a
TableState record; the lock file holds some pids when present and none when
absent.  Popen objects are identified by their pid (live processes have
distinct pids).  The lock-guarded critical sections of start_service and
monitor_service become the functions registerProcess and monitorRemove.
-/

/-- A tracked child process, as far as the table is concerned. -/
structure Proc where
  pid : Nat
deriving DecidableEq, Repr

/-- The supervisor's shared table state: the processes list, the pid-to-name
map, and the persisted lock-file contents (none when the file is absent). -/
structure TableState where
  processes : List Proc
  psMap : Nat → Option String
  lockFile : Option (List Nat)

/-- update_lock_file (pm5.py lines 233-237): rewrite the lock file with the
pids of the processes currently in the list. -/
def update_lock_file (s : TableState) : TableState :=
  { s with lockFile := some (s.processes.map Proc.pid) }

/-- The critical section of start_service (pm5.py lines 57-64): append the
new process, record its service name, and rewrite the lock file. -/
def registerProcess (s : TableState) (p : Proc) (serviceName : String) :
    TableState :=
  update_lock_file
    { s with
      processes := s.processes ++ [p]
      psMap := fun k => if k = p.pid then some serviceName else s.psMap k }

/-- The critical section of monitor_service (pm5.py lines 86-90): if the
exited process is still in the list, remove it and rewrite the lock file;
otherwise leave the state untouched. -/
def monitorRemove (s : TableState) (p : Proc) : TableState :=
  if p ∈ s.processes then
    update_lock_file { s with processes := s.processes.erase p }
  else s

/-- The Registry invariant: the persisted lock file holds exactly the pids of
the processes currently in the table. -/
def registryConsistent (s : TableState) : Prop :=
  s.lockFile = some (s.processes.map Proc.pid)

/-- Claim C3: every insertion by the Launcher's critical section leaves the
persisted Registry equal to the pid list of the table, and every removal by a
Monitor's critical section preserves that equality (rewriting the file when
it removes, leaving table and file untouched when the process is already
gone). -/
theorem table_registry_consistent (s : TableState) (p : Proc)
    (serviceName : String) (h : registryConsistent s) :
    registryConsistent (registerProcess s p serviceName) ∧
    registryConsistent (monitorRemove s p) := by
  constructor
  · simp [registerProcess, update_lock_file, registryConsistent]
  · by_cases hp : p ∈ s.processes
    · simp [monitorRemove, hp, update_lock_file, registryConsistent]
    · simpa [monitorRemove, hp] using h

/-- Witness for C3 at a one-process table whose lock file matches it. -/
theorem table_registry_consistent_witness :
    registryConsistent
      (registerProcess ⟨[⟨7⟩], fun _ => none, some [7]⟩ ⟨9⟩ "svc") ∧
    registryConsistent (monitorRemove ⟨[⟨7⟩], fun _ => none, some [7]⟩ ⟨9⟩) :=
  table_registry_consistent ⟨[⟨7⟩], fun _ => none, some [7]⟩ ⟨9⟩ "svc" rfl

/-!
## Terminator: embedding of cleanup_processes (pm5.py lines 127-190)

The OS interactions of the shutdown sequence become an action trace.  Each
tracked process carries, besides its pid, the oracle of how the OS treats it
during the sequence: whether the SIGTERM attempt on its process group raises
(logged, not fatal), whether poll() still reports it running after the grace
sleep, whether the SIGKILL attempt raises, and whether wait(timeout=5)
returns before the timeout.  getpgid(pid) = pid since every child is started
as its own process-group leader via preexec_fn=os.setsid.
-/

/-- A tracked process together with its behaviour during shutdown. -/
structure TrackedProcess where
  pid : Nat
  sigtermFails : Bool
  stillRunningAfterGrace : Bool
  sigkillFails : Bool
  exitsWithinReap : Bool
deriving DecidableEq, Repr

/-- Supervisor state seen by cleanup_processes: the processes list, the lock
file, and the global shutdown flag. -/
structure SupState where
  processes : List TrackedProcess
  lockFile : Option (List Nat)
  shutdown : Bool
deriving DecidableEq, Repr

/-- Observable actions of the shutdown sequence, in program order. -/
inductive Action where
  /-- os.killpg(pgid, SIGTERM) succeeded. -/
  | sigterm (pgid : Nat)
  /-- the SIGTERM attempt raised; the error was logged and the loop went on. -/
  | sigtermError (pgid : Nat)
  /-- time.sleep(secs): the fixed grace wait. -/
  | graceSleep (secs : Nat)
  /-- os.killpg(pgid, SIGKILL) succeeded (process still running after grace). -/
  | sigkill (pgid : Nat)
  /-- the SIGKILL attempt raised; the error was logged and the loop went on. -/
  | sigkillError (pgid : Nat)
  /-- process.wait(timeout=5) returned within the reap timeout. -/
  | reaped (pid : Nat)
  /-- wait(timeout=5) timed out: a warning was logged, with no retry. -/
  | reapTimeoutWarn (pid : Nat)
  /-- clear_lock_file(): the persisted Registry was removed. -/
  | clearRegistry
  /-- the call found shutdown already true and only logged a warning. -/
  | alreadyShuttingDownWarn
deriving DecidableEq, Repr

/-- Body of the first cleanup loop for one process: attempt SIGTERM on its
process group, logging a failure instead of aborting. -/
def termStep (acc : List Action) (p : TrackedProcess) : List Action :=
  acc ++ (if p.sigtermFails then [Action.sigtermError p.pid]
          else [Action.sigterm p.pid])

/-- Body of the second cleanup loop for one process: if poll() reports it
still running, attempt SIGKILL on its process group, logging a failure. -/
def killStep (acc : List Action) (p : TrackedProcess) : List Action :=
  acc ++ (if p.stillRunningAfterGrace then
            (if p.sigkillFails then [Action.sigkillError p.pid]
             else [Action.sigkill p.pid])
          else [])

/-- Body of the third cleanup loop for one process: wait up to 5 time units,
warning when the process does not exit in time. -/
def reapStep (acc : List Action) (p : TrackedProcess) : List Action :=
  acc ++ (if p.exitsWithinReap then [Action.reaped p.pid]
          else [Action.reapTimeoutWarn p.pid])

/-- cleanup_processes (pm5.py lines 127-190): when shutdown is already true,
log a warning and return; otherwise set the flag and, under the lock, run
the SIGTERM loop, sleep one unit, run the SIGKILL loop over still-running
processes, run the bounded reap loop, and clear the lock file.  Returns the
new state and the emitted action trace. -/
def cleanup_processes (s : SupState) : SupState × List Action :=
  if s.shutdown then (s, [Action.alreadyShuttingDownWarn])
  else
    ({ s with shutdown := true, lockFile := none },
      s.processes.foldl termStep [] ++ [Action.graceSleep 1]
        ++ s.processes.foldl killStep [] ++ s.processes.foldl reapStep []
        ++ [Action.clearRegistry])

/-- Claim C4: cleanup_processes is idempotent — after any call, a further
call returns the state unchanged and emits only the warning action (no
signal, wait or file action), and a first call on a not-yet-shut-down state
sets the shutdown flag. -/
theorem cleanup_idempotent (s : SupState) :
    (cleanup_processes (cleanup_processes s).1).1 = (cleanup_processes s).1 ∧
    (cleanup_processes (cleanup_processes s).1).2 =
      [Action.alreadyShuttingDownWarn] ∧
    (s.shutdown = false → (cleanup_processes s).1.shutdown = true) := by
  by_cases h : s.shutdown
  · simp [cleanup_processes, h]
  · simp [cleanup_processes, h]

/-- Witness for C4 at a one-process state with the flag still false. -/
theorem cleanup_idempotent_witness :
    (cleanup_processes
        (cleanup_processes ⟨[⟨3, false, true, false, true⟩], some [3], false⟩).1).1 =
      (cleanup_processes ⟨[⟨3, false, true, false, true⟩], some [3], false⟩).1 ∧
    (cleanup_processes
        (cleanup_processes ⟨[⟨3, false, true, false, true⟩], some [3], false⟩).1).2 =
      [Action.alreadyShuttingDownWarn] ∧
    (false = false →
      (cleanup_processes ⟨[⟨3, false, true, false, true⟩], some [3], false⟩).1.shutdown
        = true) :=
  cleanup_idempotent ⟨[⟨3, false, true, false, true⟩], some [3], false⟩

/-- The shutdown sequence as the spec words it (§4.4): a termination signal
per tracked process group, the fixed grace wait of 1 unit, an immediate kill
per still-running process group, a bounded reap wait per tracked process
with a warning on timeout, and finally the clearing of the Registry; signal
failures appear as logged errors and never cut the sequence short.  This
definition follows the spec text and is compared with cleanup_processes. -/
def specShutdownTrace (ps : List TrackedProcess) : List Action :=
  ps.map (fun p => if p.sigtermFails then Action.sigtermError p.pid
                   else Action.sigterm p.pid)
    ++ [Action.graceSleep 1]
    ++ (ps.filter (fun p => p.stillRunningAfterGrace)).map
        (fun p => if p.sigkillFails then Action.sigkillError p.pid
                  else Action.sigkill p.pid)
    ++ ps.map (fun p => if p.exitsWithinReap then Action.reaped p.pid
                        else Action.reapTimeoutWarn p.pid)
    ++ [Action.clearRegistry]

/-- The SIGTERM loop emits, after the accumulator, one attempt action per
tracked process in order. -/
theorem foldl_termStep : ∀ (l : List TrackedProcess) (acc : List Action),
    l.foldl termStep acc =
      acc ++ l.map (fun p => if p.sigtermFails then Action.sigtermError p.pid
                             else Action.sigterm p.pid) := by
  intro l
  induction l with
  | nil => intro acc; simp
  | cons x xs ih =>
    intro acc
    by_cases hx : x.sigtermFails <;> simp [List.foldl_cons, termStep, hx, ih]

/-- The SIGKILL loop emits, after the accumulator, one attempt action per
still-running process in order. -/
theorem foldl_killStep : ∀ (l : List TrackedProcess) (acc : List Action),
    l.foldl killStep acc =
      acc ++ (l.filter (fun p => p.stillRunningAfterGrace)).map
        (fun p => if p.sigkillFails then Action.sigkillError p.pid
                  else Action.sigkill p.pid) := by
  intro l
  induction l with
  | nil => intro acc; simp
  | cons x xs ih =>
    intro acc
    by_cases h : x.stillRunningAfterGrace <;>
      by_cases hk : x.sigkillFails <;>
        simp [List.foldl_cons, killStep, h, hk, List.filter_cons, ih]

/-- The reap loop emits, after the accumulator, one wait-or-warning action
per tracked process in order. -/
theorem foldl_reapStep : ∀ (l : List TrackedProcess) (acc : List Action),
    l.foldl reapStep acc =
      acc ++ l.map (fun p => if p.exitsWithinReap then Action.reaped p.pid
                             else Action.reapTimeoutWarn p.pid) := by
  intro l
  induction l with
  | nil => intro acc; simp
  | cons x xs ih =>
    intro acc
    by_cases hx : x.exitsWithinReap <;> simp [List.foldl_cons, reapStep, hx, ih]

/-- Claim C5: a first call to cleanup_processes (shutdown flag still false)
emits exactly the spec's shutdown sequence — SIGTERM attempts to every
tracked process group, the 1-unit grace sleep, SIGKILL attempts to exactly
the still-running ones, a bounded 5-unit reap wait per tracked process with
a timeout warning and no retry, and finally the Registry clearing — with
signal failures logged in place and never aborting the sequence; the
resulting state has the Registry cleared. -/
theorem cleanup_first_call_shutdown_sequence (s : SupState)
    (h : s.shutdown = false) :
    (cleanup_processes s).2 = specShutdownTrace s.processes ∧
    (cleanup_processes s).1.lockFile = none := by
  constructor
  · simp [cleanup_processes, h, specShutdownTrace, foldl_termStep,
      foldl_killStep, foldl_reapStep]
  · simp [cleanup_processes, h]

/-- Witness for C5 at a two-process state: pid 3 survives the grace wait and
its SIGKILL attempt fails, then it also times out in the reap; pid 4 exits
during the grace wait. -/
theorem cleanup_first_call_shutdown_sequence_witness :
    (cleanup_processes
        ⟨[⟨3, true, true, true, false⟩, ⟨4, false, false, false, true⟩],
          some [3, 4], false⟩).2 =
      specShutdownTrace
        [⟨3, true, true, true, false⟩, ⟨4, false, false, false, true⟩] ∧
    (cleanup_processes
        ⟨[⟨3, true, true, true, false⟩, ⟨4, false, false, false, true⟩],
          some [3, 4], false⟩).1.lockFile = none :=
  cleanup_first_call_shutdown_sequence
    ⟨[⟨3, true, true, true, false⟩, ⟨4, false, false, false, true⟩],
      some [3, 4], false⟩ rfl

/-!
## Crash recovery: embedding of terminate_existing_processes
## (pm5.py lines 220-229, 247-270)

At recovery time the OS's answer for a persisted pid is fixed: either the
probe killpg(pid, 0) and the following killpg(pid, SIGTERM) succeed, or one
of them raises ProcessLookupError (no such process group), or one raises
PermissionError.  That answer is the oracle status.  read_lock_file returns
the empty list when the file is absent or malformed.
-/

/-- The OS's classification of a persisted pid at recovery time. -/
inductive PidStatus where
  | ok : PidStatus
  | noSuchProcess : PidStatus
  | permissionDenied : PidStatus
deriving DecidableEq, Repr

/-- Observable events of one recovery pass, in loop order. -/
inductive RecEvent where
  /-- the process group was probed and SIGTERM was sent to it. -/
  | sigtermSent (pid : Nat)
  /-- ProcessLookupError: a warning that no process group was found. -/
  | noProcessWarn (pid : Nat)
  /-- PermissionError: a warning that termination was not permitted. -/
  | permissionWarn (pid : Nat)
deriving DecidableEq, Repr

/-- read_lock_file (pm5.py lines 220-229): the persisted pid list, or the
empty list when the file is absent (or its JSON malformed, which the Option
none case also covers). -/
def read_lock_file (lf : Option (List Nat)) : List Nat :=
  lf.getD []

/-- The classification a single pid receives in the recovery loop. -/
def recEventFor (status : Nat → PidStatus) (pid : Nat) : RecEvent :=
  match status pid with
  | PidStatus.ok => RecEvent.sigtermSent pid
  | PidStatus.noSuchProcess => RecEvent.noProcessWarn pid
  | PidStatus.permissionDenied => RecEvent.permissionWarn pid

/-- Body of the recovery loop for one pid: on success append it to
active_pids and record the SIGTERM; on either exception record only the
warning. -/
def recoverStep (status : Nat → PidStatus) (acc : List Nat × List RecEvent)
    (pid : Nat) : List Nat × List RecEvent :=
  match status pid with
  | PidStatus.ok => (acc.1 ++ [pid], acc.2 ++ [RecEvent.sigtermSent pid])
  | PidStatus.noSuchProcess => (acc.1, acc.2 ++ [RecEvent.noProcessWarn pid])
  | PidStatus.permissionDenied =>
    (acc.1, acc.2 ++ [RecEvent.permissionWarn pid])

/-- terminate_existing_processes (pm5.py lines 247-270): read the persisted
pids, classify each one, then rewrite the lock file with the active pids
when any remain and remove it otherwise.  Returns the resulting lock-file
contents and the emitted recovery events. -/
def terminate_existing_processes (status : Nat → PidStatus)
    (lf : Option (List Nat)) : Option (List Nat) × List RecEvent :=
  let r := (read_lock_file lf).foldl (recoverStep status) ([], [])
  (if r.1 ≠ [] then some r.1 else none, r.2)

/-- The recovery loop accumulates exactly the successfully signalled pids
and one classification event per persisted pid, in order. -/
theorem foldl_recoverStep (status : Nat → PidStatus) :
    ∀ (pids : List Nat) (acc : List Nat × List RecEvent),
      pids.foldl (recoverStep status) acc =
        (acc.1 ++ pids.filter (fun pid => status pid = PidStatus.ok),
         acc.2 ++ pids.map (recEventFor status)) := by
  intro pids
  induction pids with
  | nil => intro acc; simp
  | cons x xs ih =>
    intro acc
    rcases hx : status x <;>
      simp [List.foldl_cons, recoverStep, recEventFor, hx, List.filter_cons, ih]

/-!
## Launcher and main startup sequence (pm5.py lines 36-70, 274-330)

A ServiceSpec as main consumes it.  Whether subprocess.Popen raises for a
service (missing executable, permission denied) is a property of the
service's command, captured by the spawnFails oracle; when it raises,
start_service has registered nothing yet and the exception propagates to
main, which does not catch it.  Launched pids are allocated from a counter.
The startup sequence emits a MainEvent trace: first the recovery events of
terminate_existing_processes, then the per-service skip, launch and
monitor-thread events in loop order.
-/

/-- A service specification as read from the config file.  Optional fields
keep their Python .get defaults: instances none means absent (default 1). -/
structure Service where
  name : String
  interpreter : String
  interpreter_args : List String
  script : String
  args : List String
  instances : Option Int
  disabled : Bool
  wait_ready : Bool
  spawnFails : Bool
deriving DecidableEq, Repr

/-- Command construction of start_service (pm5.py lines 38-41); the Python
truthiness test on the script field is emptiness of the string. -/
def buildCommand (svc : Service) : List String :=
  [svc.interpreter] ++ svc.interpreter_args
    ++ (if svc.script ≠ "" then [svc.script] else []) ++ svc.args

/-- The instance-count resolution of main (pm5.py lines 300-305): a negative
configured count becomes total cpus minus its absolute value, floored at 1. -/
def resolveInstances (totalCpus : Int) (instCount : Int) : Int :=
  if instCount < 0 then max 1 (totalCpus - |instCount|) else instCount

/-- The uncaught exception of a failed subprocess.Popen, tagged with the
service and instance index whose start raised it. -/
structure LaunchError where
  serviceName : String
  idx : Nat
deriving DecidableEq, Repr

/-- Observable events of the startup sequence, in program order. -/
inductive MainEvent where
  /-- an event of the crash-recovery pass that main runs first. -/
  | recovery (e : RecEvent)
  /-- a disabled service was skipped. -/
  | skipDisabled (serviceName : String)
  /-- start_service returned: a TrackedProcess with this pid was created. -/
  | launch (serviceName : String) (idx : Nat) (pid : Nat)
  /-- a monitor thread was started for this wait_ready instance. -/
  | monitorStart (serviceName : String) (idx : Nat)
deriving DecidableEq, Repr

/-- The inner instance loop of main (pm5.py lines 307-315) for one service:
arguments after the colon are the remaining iteration count, the instance
index i, and the next fresh pid.  Each iteration calls start_service — which
raises when spawning fails — and starts a monitor thread when the service is
flagged wait_ready. -/
def launchLoop (svc : Service) : Nat → Nat → Nat →
    Except LaunchError (Nat × List MainEvent)
  | 0, _, nextPid => Except.ok (nextPid, [])
  | k + 1, i, nextPid =>
    if svc.spawnFails then Except.error ⟨svc.name, i⟩
    else
      match launchLoop svc k (i + 1) (nextPid + 1) with
      | Except.ok (np, evs) =>
        Except.ok (np,
          (MainEvent.launch svc.name i nextPid
              :: (if svc.wait_ready then [MainEvent.monitorStart svc.name i]
                  else []))
            ++ evs)
      | Except.error e => Except.error e

/-- One iteration of main's service loop (pm5.py lines 294-315): skip a
disabled service, otherwise resolve the instance count and run the instance
loop, recording in the Bool whether services_started was set. -/
def runService1 (totalCpus : Int) (svc : Service) (nextPid : Nat)
    (started : Bool) : Except LaunchError (Nat × Bool × List MainEvent) :=
  if svc.disabled then
    Except.ok (nextPid, started, [MainEvent.skipDisabled svc.name])
  else
    let n := (resolveInstances totalCpus (svc.instances.getD 1)).toNat
    match launchLoop svc n 0 nextPid with
    | Except.error e => Except.error e
    | Except.ok (np, evs) => Except.ok (np, started || decide (0 < n), evs)

/-- Main's service loop over the whole config list, threading the pid
counter and the services_started flag and concatenating the event traces. -/
def runServices (totalCpus : Int) : List Service → Nat → Bool →
    Except LaunchError (Nat × Bool × List MainEvent)
  | [], nextPid, started => Except.ok (nextPid, started, [])
  | svc :: rest, nextPid, started =>
    match runService1 totalCpus svc nextPid started with
    | Except.error e => Except.error e
    | Except.ok (np, st, evs) =>
      match runServices totalCpus rest np st with
      | Except.error e => Except.error e
      | Except.ok (np2, st2, evs2) => Except.ok (np2, st2, evs ++ evs2)

/-- How main's startup ends when no exception escapes. -/
inductive MainResult where
  /-- sys.exit(1): no services to start. -/
  | exitFail : MainResult
  /-- the idle wait loop was entered with the services running. -/
  | running : MainResult
deriving DecidableEq, Repr

/-- The startup sequence of main (pm5.py lines 274-330): run crash recovery
first, then the service loop; a spawn exception propagates out, otherwise
exit with status 1 when no service instance was started.  Returns the
outcome, the lock-file contents right after recovery, and the event trace. -/
def mainRun (totalCpus : Int) (status : Nat → PidStatus)
    (lf : Option (List Nat)) (svcs : List Service) (pid0 : Nat) :
    Except LaunchError (MainResult × Option (List Nat) × List MainEvent) :=
  let r := terminate_existing_processes status lf
  match runServices totalCpus svcs pid0 false with
  | Except.error e => Except.error e
  | Except.ok (_, started, evs) =>
    Except.ok
      ((if started then MainResult.running else MainResult.exitFail),
        r.1, r.2.map MainEvent.recovery ++ evs)

/-- Event classifiers for the startup trace. -/
def isLaunchEvent : MainEvent → Bool
  | MainEvent.launch _ _ _ => true
  | _ => false

/-- Is this a crash-recovery event? -/
def isRecoveryEvent : MainEvent → Bool
  | MainEvent.recovery _ => true
  | _ => false

/-- Was a monitor thread started here? -/
def isMonitorEvent : MainEvent → Bool
  | MainEvent.monitorStart _ _ => true
  | _ => false

/-- The number of launches (TrackedProcess creations) in a service-loop
result; an escaped exception launched nothing it kept. -/
def svcLaunchCount (r : Except LaunchError (Nat × Bool × List MainEvent)) :
    Nat :=
  match r with
  | Except.ok out => out.2.2.countP isLaunchEvent
  | Except.error _ => 0

/-- Closed form of the events a successful instance loop emits. -/
def launchEvts (svc : Service) : Nat → Nat → Nat → List MainEvent
  | 0, _, _ => []
  | k + 1, i, p =>
    MainEvent.launch svc.name i p
      :: ((if svc.wait_ready then [MainEvent.monitorStart svc.name i] else [])
          ++ launchEvts svc k (i + 1) (p + 1))

/-- When spawning succeeds, the instance loop launches all its iterations
and allocates consecutive pids. -/
theorem launchLoop_ok (svc : Service) (h : svc.spawnFails = false) :
    ∀ (k i p : Nat),
      launchLoop svc k i p = Except.ok (p + k, launchEvts svc k i p) := by
  intro k
  induction k with
  | zero => intro i p; simp [launchLoop, launchEvts]
  | succ k ih =>
    intro i p
    have hadd : p + 1 + k = p + (k + 1) := by omega
    simp [launchLoop, h, ih (i + 1) (p + 1), hadd, launchEvts]

/-- A successful k-iteration instance loop emits exactly k launch events. -/
theorem countP_launch_launchEvts (svc : Service) :
    ∀ (k i p : Nat), (launchEvts svc k i p).countP isLaunchEvent = k := by
  intro k
  induction k with
  | zero => intro i p; simp [launchEvts]
  | succ k ih =>
    intro i p
    by_cases hw : svc.wait_ready <;>
      simp [launchEvts, hw, List.countP_cons, isLaunchEvent, ih]

/-- The instance loop emits no recovery events. -/
theorem launchEvts_no_recovery (svc : Service) :
    ∀ (k i p : Nat) (e : MainEvent), e ∈ launchEvts svc k i p →
      isRecoveryEvent e = false := by
  intro k
  induction k with
  | zero => intro i p e he; simp [launchEvts] at he
  | succ k ih =>
    intro i p e he
    simp only [launchEvts, List.mem_cons, List.mem_append] at he
    rcases he with rfl | he | he
    · rfl
    · by_cases hw : svc.wait_ready <;> simp [hw] at he
      rw [he]; rfl
    · exact ih (i + 1) (p + 1) e he

/-- When spawning fails and at least one instance is requested, the instance
loop raises at instance index i. -/
theorem launchLoop_error (svc : Service) (h : svc.spawnFails = true)
    (k i p : Nat) (hk : 0 < k) :
    launchLoop svc k i p = Except.error ⟨svc.name, i⟩ := by
  cases k with
  | zero => omega
  | succ k => simp [launchLoop, h]

/-- Inversion: a successful instance loop run emitted exactly its iteration
count of launch events and no recovery events. -/
theorem launchLoop_ok_count (svc : Service) (k i p np : Nat)
    (evs : List MainEvent) (h : launchLoop svc k i p = Except.ok (np, evs)) :
    evs.countP isLaunchEvent = k ∧
    ∀ e ∈ evs, isRecoveryEvent e = false := by
  by_cases hs : svc.spawnFails
  · cases k with
    | zero =>
      simp [launchLoop] at h
      obtain ⟨-, rfl⟩ := h
      simp
    | succ k => rw [launchLoop_error svc hs (k + 1) i p (by omega)] at h; cases h
  · rw [launchLoop_ok svc (by simpa using hs)] at h
    have hevs : evs = launchEvts svc k i p := by
      cases h; rfl
    subst hevs
    exact ⟨countP_launch_launchEvts svc k i p, launchEvts_no_recovery svc k i p⟩

/-- One service-loop iteration updates services_started exactly when it
launched something, and emits no recovery events. -/
theorem runService1_ok (cpus : Int) (svc : Service) (p : Nat) (b : Bool)
    (np : Nat) (st : Bool) (evs : List MainEvent)
    (h : runService1 cpus svc p b = Except.ok (np, st, evs)) :
    st = (b || decide (0 < evs.countP isLaunchEvent)) ∧
    ∀ e ∈ evs, isRecoveryEvent e = false := by
  by_cases hd : svc.disabled
  · unfold runService1 at h
    rw [if_pos hd] at h
    cases h
    simp [isRecoveryEvent, isLaunchEvent]
  · unfold runService1 at h
    rw [if_neg (by simp [hd] : ¬ svc.disabled = true)] at h
    dsimp only at h
    cases hl : launchLoop svc
        ((resolveInstances cpus (svc.instances.getD 1)).toNat) 0 p with
    | error e => rw [hl] at h; simp at h
    | ok out =>
      obtain ⟨np1, evs1⟩ := out
      rw [hl] at h
      cases h
      obtain ⟨hc, hr⟩ := launchLoop_ok_count svc _ 0 p _ _ hl
      rw [hc]
      exact ⟨rfl, hr⟩

/-- The service loop sets services_started exactly when its trace holds at
least one launch event. -/
theorem runServices_started (cpus : Int) :
    ∀ (svcs : List Service) (p : Nat) (b : Bool) (np : Nat) (st : Bool)
      (evs : List MainEvent),
      runServices cpus svcs p b = Except.ok (np, st, evs) →
      st = (b || decide (0 < evs.countP isLaunchEvent)) := by
  intro svcs
  induction svcs with
  | nil =>
    intro p b np st evs h
    unfold runServices at h
    cases h
    simp
  | cons x xs ih =>
    intro p b np st evs h
    unfold runServices at h
    cases h1 : runService1 cpus x p b with
    | error e => rw [h1] at h; simp at h
    | ok out1 =>
      obtain ⟨np1, st1, evs1⟩ := out1
      rw [h1] at h
      dsimp only at h
      cases h2 : runServices cpus xs np1 st1 with
      | error e => rw [h2] at h; simp at h
      | ok out2 =>
        obtain ⟨np2, st2, evs2⟩ := out2
        rw [h2] at h
        cases h
        have e1 := (runService1_ok cpus x p b np1 st1 evs1 h1).1
        have e2 := ih np1 st1 _ _ evs2 h2
        rw [e2, e1, List.countP_append]
        cases b <;>
          by_cases c1 : 0 < evs1.countP isLaunchEvent <;>
            by_cases c2 : 0 < evs2.countP isLaunchEvent <;>
              simp [c1, c2]


/-- The service loop emits no recovery events. -/
theorem runServices_no_recovery (cpus : Int) :
    ∀ (svcs : List Service) (p : Nat) (b : Bool) (np : Nat) (st : Bool)
      (evs : List MainEvent),
      runServices cpus svcs p b = Except.ok (np, st, evs) →
      ∀ e ∈ evs, isRecoveryEvent e = false := by
  intro svcs
  induction svcs with
  | nil =>
    intro p b np st evs h
    unfold runServices at h
    cases h
    simp
  | cons x xs ih =>
    intro p b np st evs h
    unfold runServices at h
    cases h1 : runService1 cpus x p b with
    | error e => rw [h1] at h; simp at h
    | ok out1 =>
      obtain ⟨np1, st1, evs1⟩ := out1
      rw [h1] at h
      dsimp only at h
      cases h2 : runServices cpus xs np1 st1 with
      | error e => rw [h2] at h; simp at h
      | ok out2 =>
        obtain ⟨np2, st2, evs2⟩ := out2
        rw [h2] at h
        cases h
        intro e he
        rcases List.mem_append.mp he with h3 | h3
        · exact (runService1_ok cpus x p b np1 st1 evs1 h1).2 e h3
        · exact ih np1 st1 _ _ evs2 h2 e h3

/-- Claim C6: one crash-recovery pass classifies every persisted identifier
as signalled, absent (warning) or permission-denied (warning); it re-persists
exactly the successfully signalled identifiers and clears the Registry when
none were; and within main's startup its events form the prefix of the trace
that precedes every launch (recovery runs before any new instance starts). -/
theorem recovery_persists_signalled (status : Nat → PidStatus)
    (lf : Option (List Nat)) :
    (terminate_existing_processes status lf).1 =
      (if (read_lock_file lf).filter (fun pid => status pid = PidStatus.ok)
            = []
       then none
       else some ((read_lock_file lf).filter
         (fun pid => status pid = PidStatus.ok))) ∧
    (terminate_existing_processes status lf).2 =
      (read_lock_file lf).map (recEventFor status) ∧
    (∀ (cpus : Int) (svcs : List Service) (p0 : Nat)
        (res : MainResult × Option (List Nat) × List MainEvent),
        mainRun cpus status lf svcs p0 = Except.ok res →
        res.2.2 =
          (terminate_existing_processes status lf).2.map MainEvent.recovery
            ++ res.2.2.drop (terminate_existing_processes status lf).2.length ∧
        ∀ e ∈ res.2.2.drop (terminate_existing_processes status lf).2.length,
          isRecoveryEvent e = false) := by
  refine ⟨?_, ?_, ?_⟩
  · simp only [terminate_existing_processes, foldl_recoverStep, List.nil_append]
    by_cases hc : (read_lock_file lf).filter
        (fun pid => status pid = PidStatus.ok) = [] <;> simp [hc]
  · simp [terminate_existing_processes, foldl_recoverStep]
  · intro cpus svcs p0 res h
    unfold mainRun at h
    cases hr : runServices cpus svcs p0 false with
    | error e => rw [hr] at h; simp at h
    | ok out =>
      obtain ⟨np, st, evs⟩ := out
      rw [hr] at h
      cases h
      have hlen : ((terminate_existing_processes status lf).2.map
          MainEvent.recovery).length =
          (terminate_existing_processes status lf).2.length :=
        List.length_map _ _
      constructor
      · rw [← hlen, List.drop_left]
      · rw [← hlen, List.drop_left]
        exact runServices_no_recovery cpus svcs p0 false np st evs hr

/-- Concrete recovery oracle for the C6 witness: pid 5 is alive and
signalable, every other pid's process group is gone. -/
def statusW : Nat → PidStatus :=
  fun pid => if pid = 5 then PidStatus.ok else PidStatus.noSuchProcess

/-- Concrete healthy service for the C6 witness. -/
def svcW : Service :=
  ⟨"w", "python", [], "w.py", [], none, false, false, false⟩

/-- The concrete startup result of the C6 witness run. -/
def resW : MainResult × Option (List Nat) × List MainEvent :=
  (MainResult.running, some [5],
    [MainEvent.recovery (RecEvent.noProcessWarn 4),
     MainEvent.recovery (RecEvent.sigtermSent 5),
     MainEvent.launch "w" 0 100])

/-- Witness for C6: persisted pids [4, 5]; pid 4 is stale (warning, dropped),
pid 5 is signalled and re-persisted alone; in a run with one healthy
service the two recovery events precede the launch event. -/
theorem recovery_persists_signalled_witness :
    (terminate_existing_processes statusW (some [4, 5])).1 = some [5] ∧
    (terminate_existing_processes statusW (some [4, 5])).2 =
      [RecEvent.noProcessWarn 4, RecEvent.sigtermSent 5] ∧
    resW.2.2 =
      (terminate_existing_processes statusW (some [4, 5])).2.map
          MainEvent.recovery
        ++ resW.2.2.drop
          (terminate_existing_processes statusW (some [4, 5])).2.length := by
  have h := recovery_persists_signalled statusW (some [4, 5])
  refine ⟨?_, ?_, ?_⟩
  · rw [h.1]; decide
  · rw [h.2.1]; decide
  · exact (h.2.2 4 [svcW] 100 resW rfl).1

/-- The service loop processes an appended list by processing the first part
and continuing with its final pid counter and started flag; an exception in
the first part short-circuits the rest. -/
theorem runServices_append (cpus : Int) :
    ∀ (l1 l2 : List Service) (p : Nat) (b : Bool),
      runServices cpus (l1 ++ l2) p b =
        (match runServices cpus l1 p b with
         | Except.error e => Except.error e
         | Except.ok (np, st, evs) =>
           match runServices cpus l2 np st with
           | Except.error e => Except.error e
           | Except.ok (np2, st2, evs2) =>
             Except.ok (np2, st2, evs ++ evs2)) := by
  intro l1
  induction l1 with
  | nil =>
    intro l2 p b
    simp only [List.nil_append]
    rw [show runServices cpus ([] : List Service) p b = Except.ok (p, b, [])
      from rfl]
    dsimp only
    cases h : runServices cpus l2 p b with
    | error e => simp [h]
    | ok out => obtain ⟨np2, st2, evs2⟩ := out; simp [h]
  | cons x xs ih =>
    intro l2 p b
    simp only [List.cons_append]
    rw [runServices, runServices]
    cases h1 : runService1 cpus x p b with
    | error e => rfl
    | ok out1 =>
      obtain ⟨np1, st1, evs1⟩ := out1
      dsimp only
      rw [ih l2 np1 st1]
      cases h2 : runServices cpus xs np1 st1 with
      | error e => rfl
      | ok out2 =>
        obtain ⟨np2, st2, evs2⟩ := out2
        dsimp only
        cases h3 : runServices cpus l2 np2 st2 with
        | error e => rfl
        | ok out3 =>
          obtain ⟨np3, st3, evs3⟩ := out3
          simp

/-- Counterexample to claim C7 as stated: a spawn failure does not abort only
the failing instance's startup — with a second, healthy service configured
after the failing one, the exception escapes main's loop, the whole startup
run dies with it (the second service is never launched), and sys.exit(1) is
never reached. -/
theorem launch_failure_whole_run_cex :
    mainRun 4 (fun _ => PidStatus.noSuchProcess) none
        [⟨"a", "python", [], "a.py", [], some 1, false, false, true⟩,
         ⟨"b", "python", [], "b.py", [], some 1, false, false, false⟩] 100 =
      Except.error ⟨"a", 0⟩ := by
  rfl

/-- Claim C7 (amended): a spawn failure propagates out of the Launcher
uncaught and aborts the entire startup run — whatever services precede or
follow the failing one — surfacing as the launch exception; and the
exit-with-status-1 path is taken exactly when the service loop completes
having launched no instance at all. -/
theorem launch_failure_propagates_and_exit1 :
    (∀ (cpus : Int) (status : Nat → PidStatus) (lf : Option (List Nat))
        (svcs1 svcs2 : List Service) (svc : Service) (p0 np : Nat) (st : Bool)
        (evs : List MainEvent),
        runServices cpus svcs1 p0 false = Except.ok (np, st, evs) →
        svc.disabled = false → svc.spawnFails = true →
        0 < (resolveInstances cpus (svc.instances.getD 1)).toNat →
        mainRun cpus status lf (svcs1 ++ svc :: svcs2) p0 =
          Except.error ⟨svc.name, 0⟩) ∧
    (∀ (cpus : Int) (status : Nat → PidStatus) (lf : Option (List Nat))
        (svcs : List Service) (p0 : Nat)
        (res : MainResult × Option (List Nat) × List MainEvent),
        mainRun cpus status lf svcs p0 = Except.ok res →
        (res.1 = MainResult.exitFail ↔ res.2.2.countP isLaunchEvent = 0)) := by
  constructor
  · intro cpus status lf svcs1 svcs2 svc p0 np st evs hpre hd hf hn
    have hsvc : runService1 cpus svc np st = Except.error ⟨svc.name, 0⟩ := by
      unfold runService1
      rw [if_neg (by simp [hd] : ¬ svc.disabled = true)]
      dsimp only
      rw [launchLoop_error svc hf _ 0 np hn]
    have hall : runServices cpus (svcs1 ++ svc :: svcs2) p0 false =
        Except.error ⟨svc.name, 0⟩ := by
      rw [runServices_append cpus svcs1 (svc :: svcs2) p0 false, hpre]
      dsimp only
      rw [runServices, hsvc]
    unfold mainRun
    rw [hall]
  · intro cpus status lf svcs p0 res h
    unfold mainRun at h
    cases hr : runServices cpus svcs p0 false with
    | error e => rw [hr] at h; simp at h
    | ok out =>
      obtain ⟨np, st, evs⟩ := out
      rw [hr] at h
      cases h
      have hst := runServices_started cpus svcs p0 false np st evs hr
      have hevs2 : ((terminate_existing_processes status lf).2.map
            MainEvent.recovery ++ evs).countP isLaunchEvent =
          evs.countP isLaunchEvent := by
        rw [List.countP_append]
        have : ((terminate_existing_processes status lf).2.map
            MainEvent.recovery).countP isLaunchEvent = 0 := by
          rw [List.countP_eq_zero]
          intro e he
          obtain ⟨a, -, rfl⟩ := List.mem_map.mp he
          simp [isLaunchEvent]
        omega
      rw [hevs2, hst]
      by_cases hc : 0 < evs.countP isLaunchEvent
      · have hd2 : decide (0 < List.countP isLaunchEvent evs) = true := by
          simpa using hc
        rw [hd2]
        exact iff_of_false (by simp) (by omega)
      · have hd2 : decide (0 < List.countP isLaunchEvent evs) = false := by
          simpa using hc
        rw [hd2]
        exact iff_of_true (by simp) (by omega)

/-- Witness for the amended C7: a healthy service b starts first, then
service a fails to spawn and the whole run errors; and a run of one healthy
service c relates its non-exitFail outcome to its one launch event. -/
theorem launch_failure_propagates_and_exit1_witness :
    mainRun 4 (fun _ => PidStatus.permissionDenied) (some [9])
        [⟨"b", "python", [], "b.py", [], some 1, false, false, false⟩,
         ⟨"a", "python", [], "a.py", [], some 2, false, false, true⟩] 100 =
      Except.error ⟨"a", 0⟩ ∧
    (MainResult.running = MainResult.exitFail ↔
      ([MainEvent.launch "c" 0 100] : List MainEvent).countP isLaunchEvent
        = 0) := by
  constructor
  · exact launch_failure_propagates_and_exit1.1 4
      (fun _ => PidStatus.permissionDenied) (some [9])
      [⟨"b", "python", [], "b.py", [], some 1, false, false, false⟩] []
      ⟨"a", "python", [], "a.py", [], some 2, false, false, true⟩
      100 101 true [MainEvent.launch "b" 0 100] rfl rfl rfl (by decide)
  · exact launch_failure_propagates_and_exit1.2 4 (fun _ => PidStatus.ok)
      none [⟨"c", "python", [], "c.py", [], some 1, false, false, false⟩] 100
      (MainResult.running, none, [MainEvent.launch "c" 0 100]) rfl

/-- Claim C9: appended after any successfully processed prefix of the config,
an enabled service whose spawn succeeds contributes exactly its resolved
instance count in launch events — instances = n > 0 gives exactly n,
instances = -k gives exactly max 1 (cpuCount - k), and an absent instances
field gives exactly 1. -/
theorem instance_count_policy (cpus : Int) (svcs1 : List Service)
    (svc : Service) (p0 np : Nat) (st : Bool) (evs : List MainEvent)
    (hpre : runServices cpus svcs1 p0 false = Except.ok (np, st, evs))
    (hd : svc.disabled = false) (hs : svc.spawnFails = false) :
    (∀ n : Int, svc.instances = some n → 0 < n →
      svcLaunchCount (runServices cpus (svcs1 ++ [svc]) p0 false) =
        evs.countP isLaunchEvent + n.toNat) ∧
    (∀ k : Int, 0 < k → svc.instances = some (-k) →
      svcLaunchCount (runServices cpus (svcs1 ++ [svc]) p0 false) =
        evs.countP isLaunchEvent + (max 1 (cpus - k)).toNat) ∧
    (svc.instances = none →
      svcLaunchCount (runServices cpus (svcs1 ++ [svc]) p0 false) =
        evs.countP isLaunchEvent + 1) := by
  have h1 : runServices cpus [svc] np st =
      Except.ok
        (np + (resolveInstances cpus (svc.instances.getD 1)).toNat,
          st || decide
            (0 < (resolveInstances cpus (svc.instances.getD 1)).toNat),
          launchEvts svc
            ((resolveInstances cpus (svc.instances.getD 1)).toNat) 0 np
            ++ []) := by
    unfold runServices runService1
    rw [if_neg (by simp [hd] : ¬ svc.disabled = true)]
    dsimp only
    rw [launchLoop_ok svc hs]
    rfl
  have key : svcLaunchCount (runServices cpus (svcs1 ++ [svc]) p0 false) =
      evs.countP isLaunchEvent +
        (resolveInstances cpus (svc.instances.getD 1)).toNat := by
    rw [runServices_append cpus svcs1 [svc] p0 false, hpre]
    dsimp only
    rw [h1]
    dsimp only [svcLaunchCount]
    rw [List.countP_append, List.countP_append]
    simp [countP_launch_launchEvts]
  refine ⟨?_, ?_, ?_⟩
  · intro n hn hpos
    rw [key, hn]
    simp only [Option.getD_some, resolveInstances]
    rw [if_neg (by omega : ¬ n < 0)]
  · intro k hk hkeq
    rw [key, hkeq]
    simp only [Option.getD_some, resolveInstances]
    rw [if_pos (by omega : -k < 0), abs_neg, abs_of_pos hk]
  · intro hnone
    rw [key, hnone]
    norm_num [resolveInstances]

/-- Witness for C9: a service configured with 3 instances appended to the
empty prefix launches exactly 3. -/
theorem instance_count_policy_witness :
    svcLaunchCount (runServices 8
        [⟨"d", "python", [], "d.py", [], some 3, false, true, false⟩]
        100 false) = 3 := by
  have h := (instance_count_policy 8 []
      ⟨"d", "python", [], "d.py", [], some 3, false, true, false⟩
      100 100 false [] rfl rfl rfl).1 3 rfl (by norm_num)
  simpa using h

/-- A config whose enabled services all request zero instances makes the
whole service loop a no-op apart from skip logs: nothing launched, nothing
monitored, services_started untouched. -/
theorem runServices_all_zero (cpus : Int) :
    ∀ (svcs : List Service) (p : Nat) (b : Bool),
      (∀ svc ∈ svcs, svc.disabled = false → svc.instances = some 0) →
      runServices cpus svcs p b =
        Except.ok (p, b, svcs.filterMap
          (fun svc => if svc.disabled
                      then some (MainEvent.skipDisabled svc.name)
                      else none)) := by
  intro svcs
  induction svcs with
  | nil => intro p b h; rfl
  | cons x xs ih =>
    intro p b h
    by_cases hd : x.disabled
    · have hx : runService1 cpus x p b =
          Except.ok (p, b, [MainEvent.skipDisabled x.name]) := by
        unfold runService1
        rw [if_pos hd]
      unfold runServices
      rw [hx]
      dsimp only
      rw [ih p b (fun svc hsvc => h svc (List.mem_cons_of_mem x hsvc))]
      simp [List.filterMap_cons, hd]
    · have hz : x.instances = some 0 :=
        h x (List.mem_cons_self x xs) (by simpa using hd)
      have hx : runService1 cpus x p b = Except.ok (p, b, []) := by
        unfold runService1
        rw [if_neg hd]
        dsimp only
        rw [hz]
        norm_num [resolveInstances, launchLoop]
      unfold runServices
      rw [hx]
      dsimp only
      rw [ih p b (fun svc hsvc => h svc (List.mem_cons_of_mem x hsvc))]
      simp [List.filterMap_cons, hd]

/-- Claim C10: when every enabled service requests instances = 0, startup
raises no error, launches nothing, starts no monitor thread, counts nothing
toward services_started, and therefore takes the sys.exit(1) path. -/
theorem zero_instances_exit1 (cpus : Int) (status : Nat → PidStatus)
    (lf : Option (List Nat)) (svcs : List Service) (p0 : Nat)
    (h : ∀ svc ∈ svcs, svc.disabled = false → svc.instances = some 0) :
    mainRun cpus status lf svcs p0 =
      Except.ok (MainResult.exitFail,
        (terminate_existing_processes status lf).1,
        (terminate_existing_processes status lf).2.map MainEvent.recovery
          ++ svcs.filterMap
            (fun svc => if svc.disabled
                        then some (MainEvent.skipDisabled svc.name)
                        else none)) ∧
    ((terminate_existing_processes status lf).2.map MainEvent.recovery
        ++ svcs.filterMap
          (fun svc => if svc.disabled
                      then some (MainEvent.skipDisabled svc.name)
                      else none)).countP isLaunchEvent = 0 ∧
    ((terminate_existing_processes status lf).2.map MainEvent.recovery
        ++ svcs.filterMap
          (fun svc => if svc.disabled
                      then some (MainEvent.skipDisabled svc.name)
                      else none)).countP isMonitorEvent = 0 := by
  refine ⟨?_, ?_, ?_⟩
  · unfold mainRun
    rw [runServices_all_zero cpus svcs p0 false h]
    rfl
  · rw [List.countP_eq_zero]
    intro e he
    rcases List.mem_append.mp he with h1 | h1
    · obtain ⟨a, -, rfl⟩ := List.mem_map.mp h1
      simp [isLaunchEvent]
    · obtain ⟨svc, -, hf⟩ := List.mem_filterMap.mp h1
      by_cases hdd : svc.disabled <;> simp [hdd] at hf
      rw [← hf]
      simp [isLaunchEvent]
  · rw [List.countP_eq_zero]
    intro e he
    rcases List.mem_append.mp he with h1 | h1
    · obtain ⟨a, -, rfl⟩ := List.mem_map.mp h1
      simp [isMonitorEvent]
    · obtain ⟨svc, -, hf⟩ := List.mem_filterMap.mp h1
      by_cases hdd : svc.disabled <;> simp [hdd] at hf
      rw [← hf]
      simp [isMonitorEvent]

/-- Witness for C10: one enabled service with instances = 0 and wait_ready
set; startup returns the exit-1 outcome with an empty trace. -/
theorem zero_instances_exit1_witness :
    mainRun 2 (fun _ => PidStatus.ok) none
        [⟨"z", "python", [], "z.py", [], some 0, false, true, false⟩] 50 =
      Except.ok (MainResult.exitFail, none, []) := by
  have h := zero_instances_exit1 2 (fun _ => PidStatus.ok) none
      [⟨"z", "python", [], "z.py", [], some 0, false, true, false⟩] 50
      (by intro svc hsvc _; simp at hsvc; rw [hsvc])
  rw [h.1]
  rfl

end PM5
